import Mathlib

/-!
Shallow embedding of the order/cart module of the `payments` repository
(`src/mall/models.py`).  Rows of the relational tables become structures,
the database becomes an explicit `Store` record of row lists, and the
class method `Order.create_from_cart` becomes a function from a store to
an optional result (it raises `DoesNotExist` in Python when a referenced
`Product` row is missing, which we render as `none`).

Primary keys and `uuid4` draws are modelled by fresh counters held in the
store (`nextOrderId`, `nextUid`): each `Order.objects.create` consumes
one value of each supply, which is the standard rendering of a fresh-id
generator.  Timestamp and image fields play no role in any claim and
carry no logic in the source; they are omitted from the row structures.
-/

namespace Payments

/-- `Product.Status` choices from `src/mall/models.py`. -/
inductive ProductStatus where
  | active
  | sold_out
  | obsolete
  | inactive
  deriving DecidableEq, Repr

/-- A row of the `Product` table (`src/mall/models.py`, class `Product`). -/
structure Product where
  id : Nat
  category : Nat
  name : String
  description : String
  price : Nat
  status : ProductStatus
  deriving DecidableEq, Repr

/-- A row of the `CartProduct` table: one cart item of a user
(`src/mall/models.py`, class `CartProduct`). -/
structure CartProduct where
  user : Nat
  product : Nat
  quantity : Nat
  deriving DecidableEq, Repr

/-- `Order.Status` choices from `src/mall/models.py`. -/
inductive OrderStatus where
  | requested
  | failed_payment
  | paid
  | prepared_product
  | shipped
  | delivered
  | canceled
  deriving DecidableEq, Repr

/-- A row of the `Order` table (`src/mall/models.py`, class `Order`).
`uid` is the `UUIDField(default=uuid4)` value, modelled as a natural
number drawn from the fresh supply of the store. -/
structure Order where
  id : Nat
  uid : Nat
  user : Nat
  total_amount : Nat
  status : OrderStatus
  deriving DecidableEq, Repr

/-- A row of the `OrderedProduct` table: the line-item snapshot
(`src/mall/models.py`, class `OrderedProduct`).  `name` and `price` are
copies taken from the `Product` row at order time. -/
structure OrderedProduct where
  order : Nat
  product : Nat
  name : String
  price : Nat
  quantity : Nat
  deriving DecidableEq, Repr

/-- The database state: the four tables touched by the claims, plus the
fresh supplies for `Order` primary keys and `uuid4` draws. -/
structure Store where
  products : List Product
  cart : List CartProduct
  orders : List Order
  orderedProducts : List OrderedProduct
  nextOrderId : Nat
  nextUid : Nat
  deriving DecidableEq, Repr

/-- Foreign-key dereference `cart_product.product`: look a `Product` row
up by primary key (`none` renders the `DoesNotExist` exception). -/
def Store.getProduct (s : Store) (pid : Nat) : Option Product :=
  s.products.find? (fun p => p.id == pid)

/-- The `amount` property of `CartProduct`:
`self.product.price * self.quantity` (`src/mall/models.py` lines 77-79). -/
def CartProduct.amount (s : Store) (cp : CartProduct) : Option Nat :=
  (s.getProduct cp.product).map (fun p => p.price * cp.quantity)

/-- The generator expression
`sum(cart_product.amount for cart_product in cart_product_qs)`
(`src/mall/models.py` line 129): sums the amounts left to right, the
whole computation failing if any `Product` dereference fails.  The sum
of the empty cart is `0`, as for the Python builtin `sum`. -/
def sumAmounts (s : Store) : List CartProduct → Option Nat
  | [] => some 0
  | cp :: rest =>
    match CartProduct.amount s cp, sumAmounts s rest with
    | some a, some t => some (a + t)
    | _, _ => none

/-- The `cls.objects.create(user=user, total_amount=total_amount)` step
(`src/mall/models.py` line 130): build the `Order` row with the model
defaults `status = REQUESTED` and `uid = uuid4()`, and commit it.
Django runs in autocommit here (the source wraps nothing in a
transaction), so the returned store is a committed database state. -/
def createOrderRow (s : Store) (user : Nat) (total : Nat) : Order × Store :=
  let o : Order :=
    { id := s.nextOrderId
      uid := s.nextUid
      user := user
      total_amount := total
      status := OrderStatus.requested }
  (o, { s with
          orders := s.orders ++ [o]
          nextOrderId := s.nextOrderId + 1
          nextUid := s.nextUid + 1 })

/-- One iteration of the loop in `create_from_cart`
(`src/mall/models.py` lines 133-142): dereference
`cart_product.product` and build the `OrderedProduct` snapshot copying
the current `name` and `price` of the product, the cart-item
`quantity`, and references to the new order and the product. -/
def mkOrderedProduct (s : Store) (orderId : Nat) (cp : CartProduct) :
    Option OrderedProduct :=
  (s.getProduct cp.product).map (fun p =>
    { order := orderId
      product := p.id
      name := p.name
      price := p.price
      quantity := cp.quantity })

/-- The snapshot-building loop of `create_from_cart`: build the
`ordered_product_list` in input order, failing if any `Product`
dereference fails. -/
def buildSnapshots (s : Store) (orderId : Nat) :
    List CartProduct → Option (List OrderedProduct)
  | [] => some []
  | cp :: rest =>
    match mkOrderedProduct s orderId cp, buildSnapshots s orderId rest with
    | some op, some ops => some (op :: ops)
    | _, _ => none

/-- `OrderedProduct.objects.bulk_create(ordered_product_list)`
(`src/mall/models.py` line 143): append the built rows to the table in
a single batch write. -/
def bulk_create (s : Store) (ops : List OrderedProduct) : Store :=
  { s with orderedProducts := s.orderedProducts ++ ops }

/-- `Order.create_from_cart(user, cart_product_qs)`
(`src/mall/models.py` lines 123-145).  The queryset is materialised
once (`list(cart_product_qs)`) and cached, so the sum and the loop see
the same items against the same store.  Steps: compute `total_amount`,
create the `Order` row, build the snapshots, batch-write them, return
the order.  `none` renders an uncaught `DoesNotExist`. -/
def Order.create_from_cart (s : Store) (user : Nat)
    (cart_product_list : List CartProduct) : Option (Order × Store) :=
  match sumAmounts s cart_product_list with
  | none => none
  | some total_amount =>
    let res := createOrderRow s user total_amount
    match buildSnapshots res.2 res.1.id cart_product_list with
    | none => none
    | some ordered_product_list =>
      some (res.1, bulk_create res.2 ordered_product_list)

/-- The committed database state when execution of `create_from_cart`
stops right after the `Order` insert of line 130 and before the
`bulk_create` of line 143 (a simulated failure of the batch write).
The source demarcates no transaction around the two writes, so the
`Order` insert of line 130 has already committed on its own: this state
is what the database retains after such a failure. -/
def create_from_cart_interrupted (s : Store) (user : Nat)
    (cart_product_list : List CartProduct) : Option Store :=
  match sumAmounts s cart_product_list with
  | none => none
  | some total_amount => some (createOrderRow s user total_amount).2

/-- An edit of a `Product` row: save new `name` and `price` on the row
with the given primary key (as done through `ProductAdmin` in
`src/mall/admin.py`; only the `products` table is written). -/
def productEdit (s : Store) (pid : Nat) (newName : String) (newPrice : Nat) :
    Store :=
  { s with
      products := s.products.map (fun p =>
        if p.id == pid then { p with name := newName, price := newPrice }
        else p) }

/-- The current price of a product row, `0` when the row is absent
(only used to state totals; `create_from_cart` itself fails when a row
is absent). -/
def priceOf (s : Store) (pid : Nat) : Nat :=
  match s.getProduct pid with
  | some p => p.price
  | none => 0

/-- `op` is the line-item snapshot of cart item `cp` taken against
store `s` for order `oid`: the referenced product row exists and its
current `name` and `price` were copied, together with the cart-item
quantity and the references to the order and the product. -/
def SnapshotOf (s : Store) (oid : Nat) (cp : CartProduct)
    (op : OrderedProduct) : Prop :=
  ∃ p, s.getProduct cp.product = some p ∧
    op.order = oid ∧ op.product = cp.product ∧ op.name = p.name ∧
    op.price = p.price ∧ op.quantity = cp.quantity

/-- Cart uniqueness invariant of the `UniqueConstraint` on
`CartProduct.Meta` (`src/mall/models.py` lines 81-88): no two cart rows
share the same `(user, product)` pair. -/
def CartUnique (s : Store) : Prop :=
  s.cart.Pairwise (fun a b => ¬ (a.user = b.user ∧ a.product = b.product))

/-- Store well-formedness for the `uid` supply: every committed order
carries a uid drawn strictly before the next fresh value. -/
def UidsFresh (s : Store) : Prop :=
  ∀ o ∈ s.orders, o.uid < s.nextUid

/-- Store well-formedness for order primary keys: every committed
line item references an order created strictly before the next fresh
order id. -/
def OrderRefsFresh (s : Store) : Prop :=
  ∀ op ∈ s.orderedProducts, op.order < s.nextOrderId

/-- Modelled from the spec: the cart views (`views.add_to_cart`, cart
quantity adjustment via `CartProductForm`, and cart-item removal) are
routed in `src/mall/urls.py` and `src/mall/forms.py` but `views.py` is
not in the sources.  Section 4.2 of the spec describes the add
operation as an upsert: add-or-increment a `CartProduct` for
`(user, product)`; an existing row has its quantity incremented, a
missing row is inserted. -/
def addToCart (s : Store) (user pid qty : Nat) : Store :=
  if s.cart.any (fun cp => cp.user == user && cp.product == pid) then
    { s with
        cart := s.cart.map (fun cp =>
          if cp.user == user && cp.product == pid then
            { cp with quantity := cp.quantity + qty }
          else cp) }
  else
    { s with cart := s.cart ++ [{ user := user, product := pid, quantity := qty }] }

/-- Modelled from the spec: adjust the quantity of the `(user, product)`
cart row (`CartProductForm` in `src/mall/forms.py` edits only the
`quantity` field of an existing row). -/
def adjustCartQuantity (s : Store) (user pid qty : Nat) : Store :=
  { s with
      cart := s.cart.map (fun cp =>
        if cp.user == user && cp.product == pid then
          { cp with quantity := qty }
        else cp) }

/-- Modelled from the spec: explicit removal of the `(user, product)`
cart row (spec section 3: deleted on checkout or explicit removal). -/
def removeFromCart (s : Store) (user pid : Nat) : Store :=
  { s with
      cart := s.cart.filter (fun cp => !(cp.user == user && cp.product == pid)) }

/-- Demo catalog row, from the worked example of spec section 8. -/
def widget : Product :=
  { id := 1, category := 1, name := "Widget", description := ""
    price := 1000, status := ProductStatus.active }

/-- Demo catalog row, from the worked example of spec section 8. -/
def gadget : Product :=
  { id := 2, category := 1, name := "Gadget", description := ""
    price := 500, status := ProductStatus.active }

/-- Demo cart of user 1: two Widgets and one Gadget. -/
def demoCart : List CartProduct :=
  [{ user := 1, product := 1, quantity := 2 },
   { user := 1, product := 2, quantity := 1 }]

/-- Demo database state before checkout. -/
def demoStore : Store :=
  { products := [widget, gadget]
    cart := demoCart
    orders := []
    orderedProducts := []
    nextOrderId := 1
    nextUid := 1 }

/-- The order that checking out `demoCart` creates. -/
def demoOrder : Order :=
  { id := 1, uid := 1, user := 1, total_amount := 2500
    status := OrderStatus.requested }

/-- The line-item snapshots that checking out `demoCart` persists. -/
def demoSnapshots : List OrderedProduct :=
  [{ order := 1, product := 1, name := "Widget", price := 1000, quantity := 2 },
   { order := 1, product := 2, name := "Gadget", price := 500, quantity := 1 }]

/-- The database state after checking out `demoCart`. -/
def demoStoreAfter : Store :=
  { products := [widget, gadget]
    cart := demoCart
    orders := [demoOrder]
    orderedProducts := demoSnapshots
    nextOrderId := 2
    nextUid := 2 }

/-- The demo cart listed in the opposite order. -/
def demoCartRev : List CartProduct :=
  [{ user := 1, product := 2, quantity := 1 },
   { user := 1, product := 1, quantity := 2 }]

/-- The database state after checking out `demoCartRev`: same order,
line-item snapshots in the opposite order. -/
def demoStoreAfterRev : Store :=
  { products := [widget, gadget]
    cart := demoCart
    orders := [demoOrder]
    orderedProducts :=
      [{ order := 1, product := 2, name := "Gadget", price := 500, quantity := 1 },
       { order := 1, product := 1, name := "Widget", price := 1000, quantity := 2 }]
    nextOrderId := 2
    nextUid := 2 }

/-- A found product row carries the primary key it was looked up by. -/
theorem getProduct_id {s : Store} {pid : Nat} {p : Product}
    (h : s.getProduct pid = some p) : p.id = pid := by
  have h2 := List.find?_some h
  simpa using h2

/-- `buildSnapshots` reads the store only through its `products` table. -/
theorem buildSnapshots_congr (a b : Store) (hp : a.products = b.products)
    (oid : Nat) (l : List CartProduct) :
    buildSnapshots a oid l = buildSnapshots b oid l := by
  induction l with
  | nil => rfl
  | cons cp rest ih =>
    simp only [buildSnapshots, ih, mkOrderedProduct, Store.getProduct, hp]

/-- Unpacking a successful run of `create_from_cart`: the computed sum,
the built snapshots, the shape of the returned order, and the shape of
the final store. -/
theorem create_from_cart_eq (s : Store) (u : Nat) (l : List CartProduct)
    (o : Order) (s' : Store)
    (h : Order.create_from_cart s u l = some (o, s')) :
    ∃ t ops, sumAmounts s l = some t ∧
      buildSnapshots s s.nextOrderId l = some ops ∧
      o = { id := s.nextOrderId, uid := s.nextUid, user := u,
            total_amount := t, status := OrderStatus.requested } ∧
      s' = { products := s.products, cart := s.cart,
             orders := s.orders ++ [o],
             orderedProducts := s.orderedProducts ++ ops,
             nextOrderId := s.nextOrderId + 1, nextUid := s.nextUid + 1 } := by
  unfold Order.create_from_cart at h
  cases hs : sumAmounts s l with
  | none => rw [hs] at h; exact absurd h (by simp)
  | some t =>
    rw [hs] at h
    simp only [] at h
    cases hb : buildSnapshots (createOrderRow s u t).2 (createOrderRow s u t).1.id l with
    | none => rw [hb] at h; exact absurd h (by simp)
    | some ops =>
      rw [hb] at h
      simp only [Option.some.injEq, Prod.mk.injEq] at h
      obtain ⟨ho, hs'⟩ := h
      refine ⟨t, ops, rfl, ?_, ?_, ?_⟩
      · rw [← hb]
        exact (buildSnapshots_congr (createOrderRow s u t).2 s rfl s.nextOrderId l).symm
      · exact ho.symm
      · rw [← hs', ← ho]; rfl

/-- A successful sum of cart amounts is the sum of quantity times
current price over the items. -/
theorem sumAmounts_eq_map {s : Store} {l : List CartProduct} {t : Nat}
    (h : sumAmounts s l = some t) :
    t = (l.map (fun cp => cp.quantity * priceOf s cp.product)).sum := by
  induction l generalizing t with
  | nil =>
    simp only [sumAmounts, Option.some.injEq] at h
    simp [← h]
  | cons cp rest ih =>
    unfold sumAmounts at h
    cases ha : CartProduct.amount s cp with
    | none => rw [ha] at h; exact absurd h (by simp)
    | some a =>
      rw [ha] at h
      cases hr : sumAmounts s rest with
      | none => rw [hr] at h; exact absurd h (by simp)
      | some tr =>
        rw [hr] at h
        simp only [Option.some.injEq] at h
        have hpa : a = cp.quantity * priceOf s cp.product := by
          unfold CartProduct.amount at ha
          cases hp : s.getProduct cp.product with
          | none => rw [hp] at ha; exact absurd ha (by simp)
          | some p =>
            rw [hp] at ha
            simp only [Option.map_some', Option.some.injEq] at ha
            simp [priceOf, hp, ← ha, Nat.mul_comm]
        simp [← h, hpa, ih hr]

/-- Each successfully built snapshot is the snapshot of its cart item,
position by position. -/
theorem buildSnapshots_forall2 {s : Store} {oid : Nat}
    {l : List CartProduct} {ops : List OrderedProduct}
    (h : buildSnapshots s oid l = some ops) :
    List.Forall₂ (SnapshotOf s oid) l ops := by
  induction l generalizing ops with
  | nil =>
    simp only [buildSnapshots, Option.some.injEq] at h
    simp [← h]
  | cons cp rest ih =>
    unfold buildSnapshots at h
    cases ho : mkOrderedProduct s oid cp with
    | none => rw [ho] at h; exact absurd h (by simp)
    | some op =>
      rw [ho] at h
      cases hr : buildSnapshots s oid rest with
      | none => rw [hr] at h; exact absurd h (by simp)
      | some ops' =>
        rw [hr] at h
        simp only [Option.some.injEq] at h
        subst h
        refine List.Forall₂.cons ?_ (ih hr)
        unfold mkOrderedProduct at ho
        cases hp : s.getProduct cp.product with
        | none => rw [hp] at ho; exact absurd ho (by simp)
        | some p =>
          rw [hp] at ho
          simp only [Option.map_some', Option.some.injEq] at ho
          exact ⟨p, hp, by simp [← ho], by simp [← ho, getProduct_id hp],
            by simp [← ho], by simp [← ho], by simp [← ho]⟩

/-- Successfully built snapshot lists have the length of the cart. -/
theorem buildSnapshots_length {s : Store} {oid : Nat}
    {l : List CartProduct} {ops : List OrderedProduct}
    (h : buildSnapshots s oid l = some ops) : ops.length = l.length :=
  (buildSnapshots_forall2 h).length_eq.symm

/-- C1: for every cart collection with items `(p_i, q_i)`,
`Order.create_from_cart` returns an order whose `total_amount` equals
the sum over all cart items of `q_i` times the price of `p_i` as read
from the store at call time. -/
theorem create_from_cart_total (s : Store) (u : Nat)
    (l : List CartProduct) (o : Order) (t : Store)
    (h : Order.create_from_cart s u l = some (o, t)) :
    o.total_amount = (l.map (fun cp => cp.quantity * priceOf s cp.product)).sum := by
  obtain ⟨a, ops, ha, hb, ho, hs⟩ := create_from_cart_eq s u l o t h
  subst ho
  exact sumAmounts_eq_map ha

/-- Witness for C1 at the worked example of spec section 8. -/
theorem create_from_cart_total_witness :
    demoOrder.total_amount =
      (demoCart.map (fun cp => cp.quantity * priceOf demoStore cp.product)).sum :=
  create_from_cart_total demoStore 1 demoCart demoOrder demoStoreAfter (by rfl)

/-- C8: an empty cart is not rejected: `create_from_cart` succeeds,
the order has `total_amount = 0`, and no line-item row is persisted. -/
theorem create_from_cart_empty (s : Store) (u : Nat) :
    ∃ o t, Order.create_from_cart s u [] = some (o, t) ∧
      o.total_amount = 0 ∧ t.orderedProducts = s.orderedProducts := by
  refine ⟨_, _, rfl, rfl, ?_⟩
  simp [Order.create_from_cart, sumAmounts, buildSnapshots, bulk_create,
    createOrderRow]

/-- C2: a successful run persists exactly one new line-item row per
input cart item, appended to the table, and position by position each
row snapshots the name and price of the referenced product as read at
creation time, carries the cart-item quantity, and references the new
order and the original product. -/
theorem create_from_cart_line_items (s : Store) (u : Nat)
    (l : List CartProduct) (o : Order) (t : Store)
    (h : Order.create_from_cart s u l = some (o, t)) :
    ∃ ops, t.orderedProducts = s.orderedProducts ++ ops ∧
      ops.length = l.length ∧ List.Forall₂ (SnapshotOf s o.id) l ops := by
  obtain ⟨a, ops, ha, hb, ho, hs⟩ := create_from_cart_eq s u l o t h
  refine ⟨ops, by rw [hs], buildSnapshots_length hb, ?_⟩
  have : o.id = s.nextOrderId := by rw [ho]
  rw [this]
  exact buildSnapshots_forall2 hb

/-- Witness for C2 at the worked example of spec section 8. -/
theorem create_from_cart_line_items_witness :
    ∃ ops, demoStoreAfter.orderedProducts = demoStore.orderedProducts ++ ops ∧
      ops.length = demoCart.length ∧
      List.Forall₂ (SnapshotOf demoStore demoOrder.id) demoCart ops :=
  create_from_cart_line_items demoStore 1 demoCart demoOrder demoStoreAfter (by rfl)

/-- C3 evidence: the source wraps no transaction around the two writes
of `create_from_cart`, so a failure of the batch write of line 143
leaves the already committed `Order` insert of line 130 in place.  On
the worked example the retained state holds the new order and zero
line-item rows for it: the write is not atomic. -/
theorem create_from_cart_not_atomic :
    ∃ t, create_from_cart_interrupted demoStore 1 demoCart = some t ∧
      t.orders = [demoOrder] ∧ t.orderedProducts = [] :=
  ⟨_, rfl, rfl, rfl⟩

/-- C4: after a successful run, an edit to any product row (new name,
new price) leaves the orders table and the line-item table untouched:
the created order keeps its creation-time `total_amount` and every
snapshot keeps its copied name and price. -/
theorem create_from_cart_frozen (s : Store) (u : Nat)
    (l : List CartProduct) (o : Order) (t : Store)
    (pid : Nat) (nm : String) (pr : Nat)
    (h : Order.create_from_cart s u l = some (o, t)) :
    (productEdit t pid nm pr).orders = t.orders ∧
      (productEdit t pid nm pr).orderedProducts = t.orderedProducts ∧
      o ∈ (productEdit t pid nm pr).orders := by
  refine ⟨rfl, rfl, ?_⟩
  obtain ⟨a, ops, ha, hb, ho, hs⟩ := create_from_cart_eq s u l o t h
  rw [hs]
  simp [productEdit]

/-- Witness for C4: raise the Widget price to 9999 after checkout. -/
theorem create_from_cart_frozen_witness :
    (productEdit demoStoreAfter 1 "Widget II" 9999).orders =
        demoStoreAfter.orders ∧
      (productEdit demoStoreAfter 1 "Widget II" 9999).orderedProducts =
        demoStoreAfter.orderedProducts ∧
      demoOrder ∈ (productEdit demoStoreAfter 1 "Widget II" 9999).orders :=
  create_from_cart_frozen demoStore 1 demoCart demoOrder demoStoreAfter
    1 "Widget II" 9999 (by rfl)

/-- C5: a successful run appends exactly one order row and one
line-item row per cart item, and the cart table is left untouched:
every cart row, with its user, product and quantity, is still there. -/
theorem create_from_cart_side_effects (s : Store) (u : Nat)
    (l : List CartProduct) (o : Order) (t : Store)
    (h : Order.create_from_cart s u l = some (o, t)) :
    t.cart = s.cart ∧ t.orders = s.orders ++ [o] ∧
      t.orderedProducts.length = s.orderedProducts.length + l.length := by
  obtain ⟨a, ops, ha, hb, ho, hs⟩ := create_from_cart_eq s u l o t h
  subst hs
  exact ⟨rfl, rfl, by simp [buildSnapshots_length hb]⟩

/-- Witness for C5 at the worked example of spec section 8. -/
theorem create_from_cart_side_effects_witness :
    demoStoreAfter.cart = demoStore.cart ∧
      demoStoreAfter.orders = demoStore.orders ++ [demoOrder] ∧
      demoStoreAfter.orderedProducts.length =
        demoStore.orderedProducts.length + demoCart.length :=
  create_from_cart_side_effects demoStore 1 demoCart demoOrder demoStoreAfter
    (by rfl)

/-- C6: when every committed order carries a uid drawn before the next
fresh value, a successful run returns an order with
`status = REQUESTED` whose uid differs from the uid of every previously
committed order, and the freshness invariant still holds afterwards. -/
theorem create_from_cart_uid_status (s : Store) (u : Nat)
    (l : List CartProduct) (o : Order) (t : Store)
    (hf : UidsFresh s)
    (h : Order.create_from_cart s u l = some (o, t)) :
    o.status = OrderStatus.requested ∧
      (∀ p ∈ s.orders, p.uid ≠ o.uid) ∧ UidsFresh t := by
  obtain ⟨a, ops, ha, hb, ho, hs⟩ := create_from_cart_eq s u l o t h
  subst hs
  refine ⟨by rw [ho], ?_, ?_⟩
  · intro p hp
    rw [ho]
    exact Nat.ne_of_lt (hf p hp)
  · intro p hp
    simp only [List.mem_append, List.mem_singleton] at hp
    rcases hp with hp | hp
    · exact Nat.lt_succ_of_lt (hf p hp)
    · subst hp
      rw [ho]
      exact Nat.lt_succ_self _

/-- Witness for C6 at the worked example of spec section 8. -/
theorem create_from_cart_uid_status_witness :
    demoOrder.status = OrderStatus.requested ∧
      (∀ p ∈ demoStore.orders, p.uid ≠ demoOrder.uid) ∧
      UidsFresh demoStoreAfter :=
  create_from_cart_uid_status demoStore 1 demoCart demoOrder demoStoreAfter
    (by intro p hp; simp [demoStore] at hp) (by rfl)

/-- A map that changes only quantities preserves the cart uniqueness
relation. -/
theorem cartUnique_map (l : List CartProduct) (f : CartProduct → CartProduct)
    (hf : ∀ cp, (f cp).user = cp.user ∧ (f cp).product = cp.product)
    (h : l.Pairwise (fun a b => ¬ (a.user = b.user ∧ a.product = b.product))) :
    (l.map f).Pairwise
      (fun a b => ¬ (a.user = b.user ∧ a.product = b.product)) := by
  rw [List.pairwise_map]
  refine h.imp ?_
  intro a b hab
  rw [(hf a).1, (hf a).2, (hf b).1, (hf b).2]
  exact hab

/-- C7: every modelled cart operation (add-or-increment, quantity
adjustment, removal) preserves the invariant that no two cart rows
share the same `(user, product)` pair. -/
theorem cart_ops_preserve_uniqueness (s : Store) (u pid q : Nat)
    (h : CartUnique s) :
    CartUnique (addToCart s u pid q) ∧
      CartUnique (adjustCartQuantity s u pid q) ∧
      CartUnique (removeFromCart s u pid) := by
  unfold CartUnique at h
  refine ⟨?_, ?_, ?_⟩
  · unfold CartUnique addToCart
    split
    · refine cartUnique_map _ _ ?_ h
      exact fun cp => ⟨by split <;> rfl, by split <;> rfl⟩
    · rename_i hc
      rw [List.pairwise_append]
      refine ⟨h, List.pairwise_singleton _ _, ?_⟩
      intro a ha b hb
      simp only [List.mem_singleton] at hb
      subst hb
      have hfa : ∀ x ∈ s.cart, ¬ (x.user = u ∧ x.product = pid) := by
        intro x hx hxx
        exact hc (List.any_eq_true.2 ⟨x, hx, by simp [hxx.1, hxx.2]⟩)
      intro hab
      exact hfa a ha ⟨hab.1, hab.2⟩
  · unfold CartUnique adjustCartQuantity
    refine cartUnique_map _ _ ?_ h
    exact fun cp => ⟨by split <;> rfl, by split <;> rfl⟩
  · unfold CartUnique removeFromCart
    exact List.Pairwise.sublist (List.filter_sublist _) h

/-- Witness for C7: run the three cart operations on the demo store. -/
theorem cart_ops_preserve_uniqueness_witness :
    CartUnique (addToCart demoStore 1 3 1) ∧
      CartUnique (adjustCartQuantity demoStore 1 3 1) ∧
      CartUnique (removeFromCart demoStore 1 3) :=
  cart_ops_preserve_uniqueness demoStore 1 3 1 (by
    unfold CartUnique demoStore demoCart
    decide)

/-- A successful sum of cart amounts is the sum of the per-item
amounts collected by `filterMap`. -/
theorem sumAmounts_filterMap {s : Store} {l : List CartProduct} {t : Nat}
    (h : sumAmounts s l = some t) :
    t = (l.filterMap (CartProduct.amount s)).sum := by
  induction l generalizing t with
  | nil =>
    simp only [sumAmounts, Option.some.injEq] at h
    simp [← h]
  | cons cp rest ih =>
    unfold sumAmounts at h
    cases ha : CartProduct.amount s cp with
    | none => rw [ha] at h; exact absurd h (by simp)
    | some a =>
      rw [ha] at h
      cases hr : sumAmounts s rest with
      | none => rw [hr] at h; exact absurd h (by simp)
      | some tr =>
        rw [hr] at h
        simp only [Option.some.injEq] at h
        simp [List.filterMap_cons, ha, ← h, ih hr]

/-- A successfully built snapshot list is the `filterMap` of the
per-item snapshot builder. -/
theorem buildSnapshots_filterMap {s : Store} {oid : Nat}
    {l : List CartProduct} {ops : List OrderedProduct}
    (h : buildSnapshots s oid l = some ops) :
    ops = l.filterMap (mkOrderedProduct s oid) := by
  induction l generalizing ops with
  | nil =>
    simp only [buildSnapshots, Option.some.injEq] at h
    simp [← h]
  | cons cp rest ih =>
    unfold buildSnapshots at h
    cases ho : mkOrderedProduct s oid cp with
    | none => rw [ho] at h; exact absurd h (by simp)
    | some op =>
      rw [ho] at h
      cases hr : buildSnapshots s oid rest with
      | none => rw [hr] at h; exact absurd h (by simp)
      | some ops' =>
        rw [hr] at h
        simp only [Option.some.injEq] at h
        simp [List.filterMap_cons, ho, ← h, ih hr]

/-- C9: cart order is immaterial.  Successful runs on two permutations
of the same cart items, from the same store, produce orders with equal
`total_amount` and persist line-item lists that are permutations of
each other (the same multiset of snapshots). -/
theorem create_from_cart_perm (s : Store) (u : Nat)
    (l₁ l₂ : List CartProduct) (o₁ o₂ : Order) (t₁ t₂ : Store)
    (hp : l₁.Perm l₂)
    (h₁ : Order.create_from_cart s u l₁ = some (o₁, t₁))
    (h₂ : Order.create_from_cart s u l₂ = some (o₂, t₂)) :
    o₁.total_amount = o₂.total_amount ∧
      ∃ v w, t₁.orderedProducts = s.orderedProducts ++ v ∧
        t₂.orderedProducts = s.orderedProducts ++ w ∧ v.Perm w := by
  obtain ⟨a₁, v, ha₁, hb₁, ho₁, hs₁⟩ := create_from_cart_eq s u l₁ o₁ t₁ h₁
  obtain ⟨a₂, w, ha₂, hb₂, ho₂, hs₂⟩ := create_from_cart_eq s u l₂ o₂ t₂ h₂
  have hta : a₁ = a₂ := by
    rw [sumAmounts_filterMap ha₁, sumAmounts_filterMap ha₂]
    exact (hp.filterMap (CartProduct.amount s)).sum_eq
  refine ⟨by rw [ho₁, ho₂, hta], v, w, by rw [hs₁], by rw [hs₂], ?_⟩
  rw [buildSnapshots_filterMap hb₁, buildSnapshots_filterMap hb₂]
  exact hp.filterMap (mkOrderedProduct s s.nextOrderId)

/-- Witness for C9: the demo cart and its reversal. -/
theorem create_from_cart_perm_witness :
    demoOrder.total_amount = demoOrder.total_amount ∧
      ∃ v w, demoStoreAfter.orderedProducts = demoStore.orderedProducts ++ v ∧
        demoStoreAfterRev.orderedProducts = demoStore.orderedProducts ++ w ∧
        v.Perm w :=
  create_from_cart_perm demoStore 1 demoCart demoCartRev demoOrder demoOrder
    demoStoreAfter demoStoreAfterRev (List.Perm.swap _ _ _) (by rfl) (by rfl)

/-- Every snapshot built for order `oid` references order `oid`. -/
theorem buildSnapshots_order {s : Store} {oid : Nat}
    {l : List CartProduct} {ops : List OrderedProduct}
    (h : buildSnapshots s oid l = some ops) :
    ∀ op ∈ ops, op.order = oid := by
  intro op hop
  rw [buildSnapshots_filterMap h, List.mem_filterMap] at hop
  obtain ⟨cp, hcp, hm⟩ := hop
  unfold mkOrderedProduct at hm
  cases hq : s.getProduct cp.product with
  | none => rw [hq] at hm; exact absurd hm (by simp)
  | some p =>
    rw [hq] at hm
    simp only [Option.map_some', Option.some.injEq] at hm
    simp [← hm]

/-- The snapshots of a cart carry the same total as the cart amounts:
summing `price * quantity` over the built line items gives the
computed `total_amount`. -/
theorem snapshots_price_sum {s : Store} {oid : Nat}
    {l : List CartProduct} {t : Nat} {ops : List OrderedProduct}
    (ht : sumAmounts s l = some t)
    (hb : buildSnapshots s oid l = some ops) :
    (ops.map (fun op => op.price * op.quantity)).sum = t := by
  induction l generalizing t ops with
  | nil =>
    simp only [sumAmounts, Option.some.injEq] at ht
    simp only [buildSnapshots, Option.some.injEq] at hb
    simp [← ht, ← hb]
  | cons cp rest ih =>
    unfold sumAmounts at ht
    unfold buildSnapshots at hb
    cases hq : s.getProduct cp.product with
    | none =>
      rw [show CartProduct.amount s cp = none by
        simp [CartProduct.amount, hq]] at ht
      exact absurd ht (by simp)
    | some p =>
      rw [show CartProduct.amount s cp = some (p.price * cp.quantity) by
        simp [CartProduct.amount, hq]] at ht
      rw [show mkOrderedProduct s oid cp = some
          { order := oid, product := p.id, name := p.name,
            price := p.price, quantity := cp.quantity } by
        simp [mkOrderedProduct, hq]] at hb
      cases hr : sumAmounts s rest with
      | none => rw [hr] at ht; exact absurd ht (by simp)
      | some tr =>
        rw [hr] at ht
        cases hbr : buildSnapshots s oid rest with
        | none => rw [hbr] at hb; exact absurd hb (by simp)
        | some ops' =>
          rw [hbr] at hb
          simp only [Option.some.injEq] at ht hb
          simp [← ht, ← hb, ih hr hbr]

/-- C10: when every already committed line item references an already
allocated order id, a successful run satisfies the derived-total
invariant: the `total_amount` of the new order equals the sum of
`price * quantity` over exactly the line-item rows referencing it. -/
theorem create_from_cart_total_from_lines (s : Store) (u : Nat)
    (l : List CartProduct) (o : Order) (t : Store)
    (hf : OrderRefsFresh s)
    (h : Order.create_from_cart s u l = some (o, t)) :
    ((t.orderedProducts.filter (fun op => op.order == o.id)).map
        (fun op => op.price * op.quantity)).sum = o.total_amount := by
  obtain ⟨a, ops, ha, hb, ho, hs⟩ := create_from_cart_eq s u l o t h
  have hoid : o.id = s.nextOrderId := by rw [ho]
  have hold : s.orderedProducts.filter (fun op => op.order == o.id) = [] := by
    refine List.filter_eq_nil_iff.2 ?_
    intro op hop
    have hlt := hf op hop
    simp only [beq_iff_eq, hoid]
    omega
  have hnew : ops.filter (fun op => op.order == o.id) = ops := by
    refine List.filter_eq_self.2 ?_
    intro op hop
    have := buildSnapshots_order hb op hop
    simp [this, hoid]
  have hop2 : t.orderedProducts = s.orderedProducts ++ ops := by rw [hs]
  rw [hop2, List.filter_append, hold, hnew, List.nil_append]
  rw [show o.total_amount = a by rw [ho]]
  exact snapshots_price_sum ha hb

/-- Witness for C10 at the worked example of spec section 8. -/
theorem create_from_cart_total_from_lines_witness :
    ((demoStoreAfter.orderedProducts.filter
        (fun op => op.order == demoOrder.id)).map
      (fun op => op.price * op.quantity)).sum = demoOrder.total_amount :=
  create_from_cart_total_from_lines demoStore 1 demoCart demoOrder
    demoStoreAfter (by intro op hop; simp [demoStore] at hop) (by rfl)

end Payments
